import Mathlib

/-!
# Verification of the DataExtractor CSV consolidation pipeline

Shallow embedding of `src/app.py` (the EnergyAnalyser Streamlit app).
Python strings are embedded as `List Char`; the pandas DataFrame produced
by `pd.read_csv` is embedded as a table of string cells (`UploadedFile`),
since `read_csv` itself is external library code.  The per-file
processing body of `process_uploaded_files` (column resolution, duplicate
check, width check, datetime parsing, output construction) is translated
step by step; the `st.error` / `continue` control flow is modelled by a
result type, one constructor per distinct failure path.
-/

namespace DataExtractor

/-- Convenience: the character list of a string literal (Python `str` is
embedded as `List Char`). -/
def pyL (s : String) : List Char := s.data

/-- Python's `str.upper()` on one character, restricted to ASCII (all inputs
in this program are ASCII column letters / filenames). -/
def upChar (c : Char) : Char :=
  if 'a' ≤ c ∧ c ≤ 'z' then Char.ofNat (c.toNat - 32) else c

/-- Python's `str.upper()` (ASCII fragment). -/
def pyUpper (s : List Char) : List Char := s.map upChar

/-- Python's whitespace predicate used by `str.strip()` (ASCII fragment). -/
def isPySpace (c : Char) : Bool :=
  c = ' ' ∨ c = '\t' ∨ c = '\n' ∨ c = '\r' ∨ c = '\x0b' ∨ c = '\x0c'

/-- Python's `str.strip()`: remove leading and trailing whitespace. -/
def pyStrip (s : List Char) : List Char :=
  ((s.dropWhile isPySpace).reverse.dropWhile isPySpace).reverse

/-- Result of `excel_col_to_index`: either a 0-based index, or the
`ValueError("Invalid character in column string: ...")` raised on a
non-A–Z character (the spec calls this failure `InvalidColumnLetter`). -/
inductive ColResult where
  | ok (i : Int)
  | invalidColumnLetter
  deriving DecidableEq, Repr

/-- The accumulating loop of `excel_col_to_index`:
`for char in col_str: if 'A' <= char <= 'Z': index = index * 26 + (ord(char) - ord('A') + 1) else: raise ValueError(...)`. -/
def excelFold (acc : Int) : List Char → ColResult
  | [] => .ok acc
  | c :: cs =>
    if 'A' ≤ c ∧ c ≤ 'Z' then
      excelFold (acc * 26 + ((c.toNat : Int) - 65 + 1)) cs
    else
      .invalidColumnLetter

/-- `excel_col_to_index` from `src/app.py`: normalise with
`col_str.upper().strip()`, accumulate base-26 with A=1..Z=26, and return
`index - 1` (0-based).  The empty string therefore yields `-1`. -/
def excel_col_to_index (colStr : List Char) : ColResult :=
  match excelFold 0 (pyStrip (pyUpper colStr)) with
  | .ok i => .ok (i - 1)
  | .invalidColumnLetter => .invalidColumnLetter

/-- Modelled from the spec: the standard 0-based index → Excel letter
inverse ("the index-to-letter inverse"), A=0..Z=25, AA=26, ....  No such
function exists in `src/app.py`; it is the spec side of the round-trip
claim. -/
def indexToLetterAux : Nat → Nat → List Char
  | 0, _ => []
  | fuel + 1, n =>
    if n < 26 then [Char.ofNat (65 + n)]
    else indexToLetterAux fuel (n / 26 - 1) ++ [Char.ofNat (65 + n % 26)]

/-- Modelled from the spec: entry point of the index → letter inverse.
The fuel argument `n + 1` always suffices since the quotient strictly
decreases. -/
def indexToLetter (n : Nat) : List Char := indexToLetterAux (n + 1) n

/-! ## Datetime parsing and rendering

`pd.to_datetime(combined, errors='coerce', format=...)` with the two
format strings of `DATE_FORMAT_MAP` is external library code; it is
modelled here as an exact-format parser: `%d`, `%m`, `%H`, `%M`, `%S`
match one or two digits, `%Y` matches four digits, literals must match
exactly, the whole string must be consumed, and the fields must form a
valid calendar date/time (otherwise the row coerces to `NaT = none`).
`Series.dt.strftime` is modelled by the zero-padded renderers below. -/

/-- The two options of the `selected_date_format` selectbox, i.e. the
keys of `DATE_FORMAT_MAP`. -/
inductive DateFmt where
  | dmy  -- "DD/MM/YYYY"  ↦ "%d/%m/%Y %H:%M:%S"
  | ymd  -- "YYYY-MM-DD"  ↦ "%Y-%m-%d %H:%M:%S"
  deriving DecidableEq, Repr

/-- A successfully parsed timestamp (pandas `Timestamp`, naive). -/
structure PDateTime where
  year : Nat
  month : Nat
  day : Nat
  hour : Nat
  minute : Nat
  second : Nat
  deriving DecidableEq, Repr

def isDigitCh (c : Char) : Bool := '0' ≤ c ∧ c ≤ '9'

def digitVal (c : Char) : Nat := c.toNat - 48

/-- Read one or two digits (greedy), as strptime does for `%d`, `%m`,
`%H`, `%M`, `%S`. -/
def read12 : List Char → Option (Nat × List Char)
  | [] => none
  | [c] => if isDigitCh c then some (digitVal c, []) else none
  | c1 :: c2 :: rest =>
    if isDigitCh c1 then
      if isDigitCh c2 then some (10 * digitVal c1 + digitVal c2, rest)
      else some (digitVal c1, c2 :: rest)
    else none

/-- Read exactly four digits, as strptime does for `%Y`. -/
def read4 : List Char → Option (Nat × List Char)
  | c1 :: c2 :: c3 :: c4 :: rest =>
    if isDigitCh c1 && isDigitCh c2 && isDigitCh c3 && isDigitCh c4 then
      some (1000 * digitVal c1 + 100 * digitVal c2 + 10 * digitVal c3 + digitVal c4, rest)
    else none
  | _ => none

/-- Expect one literal character. -/
def expectCh (c : Char) : List Char → Option (List Char)
  | [] => none
  | c' :: rest => if c' = c then some rest else none

def isLeap (y : Nat) : Bool := y % 4 = 0 ∧ (y % 100 ≠ 0 ∨ y % 400 = 0)

def daysInMonth (y m : Nat) : Nat :=
  if m = 2 then (if isLeap y then 29 else 28)
  else if m = 4 ∨ m = 6 ∨ m = 9 ∨ m = 11 then 30
  else 31

/-- Field validity checked by pandas before producing a `Timestamp`. -/
def validDT (y mo d h mi s : Nat) : Bool :=
  1 ≤ mo ∧ mo ≤ 12 ∧ 1 ≤ d ∧ d ≤ daysInMonth y mo ∧ h ≤ 23 ∧ mi ≤ 59 ∧ s ≤ 59

/-- Parse the date part of the combined string: either `%d/%m/%Y` or
`%Y-%m-%d`, returning `(year, month, day, rest)`. -/
def parseDatePart : DateFmt → List Char → Option (Nat × Nat × Nat × List Char)
  | .dmy, s => do
    let (d, s1) ← read12 s
    let s2 ← expectCh '/' s1
    let (mo, s3) ← read12 s2
    let s4 ← expectCh '/' s3
    let (y, s5) ← read4 s4
    some (y, mo, d, s5)
  | .ymd, s => do
    let (y, s1) ← read4 s
    let s2 ← expectCh '-' s1
    let (mo, s3) ← read12 s2
    let s4 ← expectCh '-' s3
    let (d, s5) ← read12 s4
    some (y, mo, d, s5)

/-- Parse ` %H:%M:%S` to the end of the string. -/
def parseTimePart (s : List Char) : Option (Nat × Nat × Nat) := do
  let s0 ← expectCh ' ' s
  let (h, s1) ← read12 s0
  let s2 ← expectCh ':' s1
  let (mi, s3) ← read12 s2
  let s4 ← expectCh ':' s3
  let (sec, s5) ← read12 s4
  if s5 = [] then some (h, mi, sec) else none

/-- Model of `pd.to_datetime(s, errors='coerce', format=fmt)` on one
combined date-time string: `none` is `NaT`. -/
def parseFmt (fmt : DateFmt) (s : List Char) : Option PDateTime := do
  let (y, mo, d, rest) ← parseDatePart fmt s
  let (h, mi, sec) ← parseTimePart rest
  if validDT y mo d h mi sec then some ⟨y, mo, d, h, mi, sec⟩ else none

/-- A zero-padded two-digit field of `strftime`. -/
def pad2 (n : Nat) : List Char :=
  [Char.ofNat (48 + n / 10 % 10), Char.ofNat (48 + n % 10)]

/-- A zero-padded four-digit field of `strftime` (`%Y`, year < 10000). -/
def pad4 (n : Nat) : List Char :=
  [Char.ofNat (48 + n / 1000 % 10), Char.ofNat (48 + n / 100 % 10),
   Char.ofNat (48 + n / 10 % 10), Char.ofNat (48 + n % 10)]

/-- `datetime_series.dt.strftime('%d/%m/%Y')` on one parsed timestamp. -/
def formatDMY (dt : PDateTime) : List Char :=
  pad2 dt.day ++ '/' :: pad2 dt.month ++ '/' :: pad4 dt.year

/-- `datetime_series.dt.strftime('%H:%M:%S')` on one parsed timestamp. -/
def formatHMS (dt : PDateTime) : List Char :=
  pad2 dt.hour ++ ':' :: pad2 dt.minute ++ ':' :: pad2 dt.second

/-! ## The per-file processing of `process_uploaded_files` -/

/-- One uploaded file after `pd.read_csv` (external library code): the
original filename, the DataFrame width `shape[1]`, and the data rows as
string cells.  Header-offset and delimiter handling live inside
`read_csv` and are therefore absorbed into this table. -/
structure UploadedFile where
  name : List Char
  ncols : Nat
  rows : List (List (List Char))
  deriving DecidableEq, Repr

/-- The per-file configuration dictionary built by the sidebar: the three
column-letter strings and the parse format.  (`delimiter_input` and
`start_row_num` are consumed by `read_csv` and so do not reappear here.) -/
structure Config where
  date_col_str : List Char
  time_col_str : List Char
  psum_col_str : List Char
  fmt : DateFmt
  deriving DecidableEq, Repr

/-- One row of the output DataFrame `df_final`: Date and Time are the
rendered strings (or `none` where the combined datetime coerced to `NaT`,
whose `strftime` is `NaN`), and `PSum (W)` is the `pd.to_numeric(...,
errors='coerce')` value. -/
structure OutRow where
  date : Option (List Char)
  time : Option (List Char)
  psum : Option Int
  deriving DecidableEq, Repr

/-- `pd.to_numeric(x, errors='coerce')` modelled on optional-sign integer
literals (the only numerals the development instantiates); anything else
coerces to missing. -/
def pyToNumeric (s : List Char) : Option Int :=
  match s with
  | '-' :: ds => if ds ≠ [] ∧ ds.all isDigitCh then
      some (-(ds.foldl (fun a c => 10 * a + (digitVal c : Int)) 0)) else none
  | ds => if ds ≠ [] ∧ ds.all isDigitCh then
      some (ds.foldl (fun a c => 10 * a + (digitVal c : Int)) 0) else none

/-- `df_full.iloc`-style cell access at a (possibly negative, Python
semantics) column index; an absent cell is modelled as the empty string. -/
def cellAt (row : List (List Char)) (ncols : Nat) (i : Int) : List Char :=
  if 0 ≤ i then row.getD i.toNat [] else row.getD (ncols - i.natAbs) []

/-- Step 6 of the code: `df_extracted['Date'].astype(str) + ' ' +
df_extracted['Time'].astype(str)` for one row. -/
def combinedStr (row : List (List Char)) (ncols : Nat) (d t : Int) : List Char :=
  cellAt row ncols d ++ ' ' :: cellAt row ncols t

/-- One row of `df_final` as built from `datetime_series` and the
extracted PSum column. -/
def mkOutRow (fmt : DateFmt) (ncols : Nat) (d t p : Int)
    (row : List (List Char)) : OutRow :=
  let odt := parseFmt fmt (combinedStr row ncols d t)
  { date := odt.map formatDMY
    time := odt.map formatHMS
    psum := pyToNumeric (cellAt row ncols p) }

/-- `valid_dates_count = datetime_series.count()`: the number of rows
whose combined date/time string parses. -/
def validCount (f : UploadedFile) (fmt : DateFmt) (d t : Int) : Nat :=
  (f.rows.filter (fun row => (parseFmt fmt (combinedStr row f.ncols d t)).isSome)).length

/-- The number of rows whose combined date/time string fails to parse
(the K of the drop-accounting claim). -/
def failCount (f : UploadedFile) (fmt : DateFmt) (d t : Int) : Nat :=
  (f.rows.filter (fun row => (parseFmt fmt (combinedStr row f.ncols d t)).isNone)).length

/-- Python's `str.replace('.csv', '')`: delete every (non-overlapping,
left-to-right) occurrence of `.csv`. -/
def dropCsv : List Char → List Char
  | '.' :: 'c' :: 's' :: 'v' :: rest => dropCsv rest
  | c :: rest => c :: dropCsv rest
  | [] => []

/-- Step 7: `filename.replace('.csv', '').replace('.', '_').strip()[:31]`. -/
def cleanSheetName (filename : List Char) : List Char :=
  (pyStrip ((dropCsv filename).map (fun c => if c = '.' then '_' else c))).take 31

/-- Outcome of the per-file body of `process_uploaded_files`: the sheet
name with the rows of `df_final`, or one of the `continue`-paths (the
caught `ValueError`, the duplicate-index `st.error`, the column-count
`st.error`, the no-valid-dates `st.warning`). -/
inductive FileResult where
  | ok (sheet : List Char) (rows : List OutRow)
  | invalidColumnLetter
  | duplicateColumnMapping
  | headerTooShort
  | noValidRows
  deriving DecidableEq, Repr

/-- The body of the `for` loop of `process_uploaded_files` for one file
and its configuration, translated step by step from `src/app.py`:
resolve the three column letters (a `ValueError` is caught);
`len(set(col_indices)) != 3` is the pairwise-equality test; then the
`shape[1] < max_index + 1` width check; then datetime parsing with
`valid_dates_count == 0` skipping the file; finally `df_final` and the
cleaned sheet name. -/
def processFile (f : UploadedFile) (cfg : Config) : FileResult :=
  match excel_col_to_index cfg.date_col_str, excel_col_to_index cfg.time_col_str,
      excel_col_to_index cfg.psum_col_str with
  | .ok d, .ok t, .ok p =>
    if d = t ∨ d = p ∨ t = p then .duplicateColumnMapping
    else if (f.ncols : Int) < max d (max t p) + 1 then .headerTooShort
    else if validCount f cfg.fmt d t = 0 then .noValidRows
    else .ok (cleanSheetName f.name) (f.rows.map (mkOutRow cfg.fmt f.ncols d t p))
  | _, _, _ => .invalidColumnLetter

/-- Insertion into the Python dict `processed_data`: assigning to an
existing key replaces its value in place, otherwise the pair is appended. -/
def dictInsert (k : List Char) (v : List OutRow) :
    List (List Char × List OutRow) → List (List Char × List OutRow)
  | [] => [(k, v)]
  | (k', v') :: rest =>
    if k' = k then (k', v) :: rest else (k', v') :: dictInsert k v rest

/-- The `for` loop of `process_uploaded_files`: failed files are skipped
(`continue`), successful ones stored under their sheet name. -/
def processLoop : List (UploadedFile × Config) →
    List (List Char × List OutRow) → List (List Char × List OutRow)
  | [], acc => acc
  | (f, cfg) :: rest, acc =>
    match processFile f cfg with
    | .ok sheet rows => processLoop rest (dictInsert sheet rows acc)
    | _ => processLoop rest acc

/-- `process_uploaded_files(uploaded_files, file_configs)`: the files are
paired index-wise with their configurations (`file_configs[i]`) and the
resulting dict of DataFrames is returned. -/
def process_uploaded_files (files : List UploadedFile) (configs : List Config) :
    List (List Char × List OutRow) :=
  processLoop (files.zip configs) []

/-! ## Output-shape predicates -/

/-- The string has the `DD/MM/YYYY` shape: ten characters, digits with
slashes at positions 2 and 5. -/
def dateShape (s : List Char) : Bool :=
  match s with
  | [a, b, c, d, e, f, g, h, i, j] =>
    isDigitCh a && isDigitCh b && c = '/' && isDigitCh d && isDigitCh e &&
    f = '/' && isDigitCh g && isDigitCh h && isDigitCh i && isDigitCh j
  | _ => false

/-- The string has the `HH:MM:SS` shape: eight characters, digits with
colons at positions 2 and 5. -/
def timeShape (s : List Char) : Bool :=
  match s with
  | [a, b, c, d, e, f, g, h] =>
    isDigitCh a && isDigitCh b && c = ':' && isDigitCh d && isDigitCh e &&
    f = ':' && isDigitCh g && isDigitCh h
  | _ => false

/-! ## Concrete instances used by counterexamples and witnesses -/

/-- The default configuration: Date in column A, Time in B, PSum in C,
day-first format. -/
def cfgABC : Config := ⟨pyL "A", pyL "B", pyL "C", .dmy⟩

/-- A two-row file whose second row has an unparseable date/time. -/
def fileMixed : UploadedFile :=
  ⟨pyL "m.csv", 3, [[pyL "01/01/2021", pyL "00:00:00", pyL "5"],
                    [pyL "bad", pyL "x", pyL "6"]]⟩

/-- The two `df_final` rows the code produces for `fileMixed`. -/
def rowsMixed : List OutRow :=
  [⟨some (pyL "01/01/2021"), some (pyL "00:00:00"), some 5⟩,
   ⟨none, none, some 6⟩]

/-- A file whose name cleans to the sheet name `a_b`. -/
def fileDotB : UploadedFile :=
  ⟨pyL "a.b.csv", 3, [[pyL "01/01/2021", pyL "00:00:00", pyL "1"]]⟩

/-- A different file whose name also cleans to `a_b`. -/
def fileUndB : UploadedFile :=
  ⟨pyL "a_b.csv", 3, [[pyL "01/01/2021", pyL "00:00:00", pyL "2"]]⟩

/-- The single output row of `fileDotB`. -/
def rowDotB : OutRow := ⟨some (pyL "01/01/2021"), some (pyL "00:00:00"), some 1⟩

/-- The single output row of `fileUndB`. -/
def rowUndB : OutRow := ⟨some (pyL "01/01/2021"), some (pyL "00:00:00"), some 2⟩

/-- A one-row file every row of which fails date/time parsing. -/
def fileAllBad : UploadedFile := ⟨pyL "x.csv", 3, [[pyL "bad", pyL "worse", pyL "1"]]⟩

/-- A file whose table is too narrow for the required column C (index 2). -/
def fileNarrow : UploadedFile := ⟨pyL "n.csv", 1, [[pyL "01/01/2021"]]⟩

/-- A configuration mapping Date and Time to the same column A. -/
def cfgDup : Config := ⟨pyL "A", pyL "A", pyL "B", .dmy⟩

/-- A one-row file with a valid timestamp, for the normalization witness. -/
def fileNine : UploadedFile :=
  ⟨pyL "m9.csv", 3, [[pyL "01/01/2021", pyL "00:00:00", pyL "5"]]⟩

/-- The output row of `fileNine`. -/
def rowNine : OutRow := ⟨some (pyL "01/01/2021"), some (pyL "00:00:00"), some 5⟩

/-! ## Helper lemmas -/

/-- The accumulating loop fails exactly when some character of the
remaining input is outside `A`–`Z` (and the accumulator is irrelevant). -/
theorem excelFold_err_iff (cs : List Char) : ∀ acc : Int,
    excelFold acc cs = .invalidColumnLetter ↔
    ∃ c ∈ cs, ¬('A' ≤ c ∧ c ≤ 'Z') := by
  induction cs with
  | nil => intro acc; simp [excelFold]
  | cons c cs ih =>
    intro acc
    by_cases h : 'A' ≤ c ∧ c ≤ 'Z'
    · simp [excelFold, h, ih]
    · simp only [excelFold, if_neg h]
      exact ⟨fun _ => ⟨c, by simp, h⟩, fun _ => by trivial⟩

/-- `excel_col_to_index` fails exactly when a non-`A`–`Z` character
remains after uppercasing and stripping. -/
theorem excel_err_iff (s : List Char) :
    excel_col_to_index s = .invalidColumnLetter ↔
    ∃ c ∈ pyStrip (pyUpper s), ¬('A' ≤ c ∧ c ≤ 'Z') := by
  unfold excel_col_to_index
  cases h : excelFold 0 (pyStrip (pyUpper s)) with
  | ok i =>
    refine iff_of_false (by simp) (fun hex => ?_)
    have := (excelFold_err_iff (pyStrip (pyUpper s)) 0).2 hex
    rw [h] at this
    exact ColResult.noConfusion this
  | invalidColumnLetter =>
    exact iff_of_true rfl ((excelFold_err_iff (pyStrip (pyUpper s)) 0).1 h)

/-- Splitting a list by a Boolean predicate preserves total length. -/
theorem length_filter_pos_neg {α : Type} (p : α → Bool) (l : List α) :
    (l.filter p).length + (l.filter (fun a => !(p a))).length = l.length := by
  induction l with
  | nil => simp
  | cons a l ih => cases h : p a <;> simp [List.filter, h] <;> omega

/-- Each character `48 + k` with `k < 10` is an ASCII digit. -/
theorem digitCh_ok : ∀ k < 10, isDigitCh (Char.ofNat (48 + k)) = true := by decide

/-- The rendered date always has the `DD/MM/YYYY` shape. -/
theorem dateShape_formatDMY (dt : PDateTime) : dateShape (formatDMY dt) = true := by
  have hd : ∀ n : Nat, isDigitCh (Char.ofNat (48 + n % 10)) = true :=
    fun n => digitCh_ok _ (Nat.mod_lt _ (by omega))
  simp [formatDMY, pad2, pad4, dateShape, hd]

/-- The rendered time always has the `HH:MM:SS` shape. -/
theorem timeShape_formatHMS (dt : PDateTime) : timeShape (formatHMS dt) = true := by
  have hd : ∀ n : Nat, isDigitCh (Char.ofNat (48 + n % 10)) = true :=
    fun n => digitCh_ok _ (Nat.mod_lt _ (by omega))
  simp [formatHMS, pad2, timeShape, hd]

/-- The success branch of the per-file body: with the three columns
resolved, pairwise distinct, fitting the table width, and at least one
parseable row, the file yields the mapped rows under its cleaned name. -/
theorem processFile_ok (f : UploadedFile) (cfg : Config) (d t p : Int)
    (hd : excel_col_to_index cfg.date_col_str = .ok d)
    (ht : excel_col_to_index cfg.time_col_str = .ok t)
    (hp : excel_col_to_index cfg.psum_col_str = .ok p)
    (hn : ¬(d = t ∨ d = p ∨ t = p))
    (hw : ¬((f.ncols : Int) < max d (max t p) + 1))
    (hv : ¬(validCount f cfg.fmt d t = 0)) :
    processFile f cfg =
      .ok (cleanSheetName f.name) (f.rows.map (mkOutRow cfg.fmt f.ncols d t p)) := by
  unfold processFile
  simp only [hd, ht, hp]
  rw [if_neg hn, if_neg hw, if_neg hv]

/-- Inversion of the success branch: a successful file was resolved to
three indices and its rows are exactly the mapped input rows. -/
theorem processFile_ok_inv (f : UploadedFile) (cfg : Config)
    (nm : List Char) (rs : List OutRow)
    (hok : processFile f cfg = .ok nm rs) :
    ∃ d t p : Int,
      excel_col_to_index cfg.date_col_str = .ok d ∧
      excel_col_to_index cfg.time_col_str = .ok t ∧
      excel_col_to_index cfg.psum_col_str = .ok p ∧
      nm = cleanSheetName f.name ∧
      rs = f.rows.map (mkOutRow cfg.fmt f.ncols d t p) := by
  unfold processFile at hok
  split at hok
  · rename_i d t p hd ht hp
    split_ifs at hok with h1 h2 h3
    obtain ⟨hnm, hrs⟩ := FileResult.ok.inj hok
    exact ⟨d, t, p, hd, ht, hp, hnm.symm, hrs.symm⟩
  · exact (FileResult.noConfusion hok)

/-- A file whose body hits any `continue` path contributes nothing, and
the loop proceeds with the remaining files unchanged. -/
theorem process_cons_skip (f : UploadedFile) (cfg : Config)
    (fs : List UploadedFile) (cs : List Config)
    (h : ∀ nm rs, processFile f cfg ≠ .ok nm rs) :
    process_uploaded_files (f :: fs) (cfg :: cs) = process_uploaded_files fs cs := by
  unfold process_uploaded_files
  rw [List.zip_cons_cons]
  cases he : processFile f cfg with
  | ok nm rs => exact absurd he (h nm rs)
  | invalidColumnLetter => simp [processLoop, he]
  | duplicateColumnMapping => simp [processLoop, he]
  | headerTooShort => simp [processLoop, he]
  | noValidRows => simp [processLoop, he]

/-- Counting output rows with a missing Date equals counting input rows
whose combined date/time fails to parse. -/
theorem length_filter_dateNone (fmt : DateFmt) (nc : Nat) (d t p : Int)
    (l : List (List (List Char))) :
    ((l.map (mkOutRow fmt nc d t p)).filter (fun r => r.date.isNone)).length =
    (l.filter (fun row => (parseFmt fmt (combinedStr row nc d t)).isNone)).length := by
  induction l with
  | nil => simp
  | cons row l ih =>
    cases h : parseFmt fmt (combinedStr row nc d t) <;>
      simp [mkOutRow, h, ih]

/-- The parsed and unparseable rows of a file partition its data rows. -/
theorem validCount_add_failCount (f : UploadedFile) (fmt : DateFmt) (d t : Int) :
    validCount f fmt d t + failCount f fmt d t = f.rows.length := by
  have hfun : ∀ o : Option PDateTime, o.isNone = !o.isSome := fun o => by
    cases o <;> rfl
  unfold validCount failCount
  simp only [hfun]
  exact length_filter_pos_neg
    (fun row => (parseFmt fmt (combinedStr row f.ncols d t)).isSome) f.rows

/-! ## Claims -/

/-- C1 counterexample: a file with R = 2 data rows of which K = 1 fails
to parse is emitted with 2 rows (the unparseable row kept with missing
Date/Time), not R − K = 1; so the claimed drop accounting is false. -/
theorem c1_counterexample :
    processFile fileMixed cfgABC = .ok (pyL "m") rowsMixed ∧
    failCount fileMixed .dmy 0 1 = 1 ∧
    rowsMixed.length = 2 ∧ ¬(rowsMixed.length = 2 - 1) := by decide

/-- C1 (amended): a successfully processed file with R data rows of which
K fail date/time parsing yields exactly R output rows — the K unparseable
rows are kept with a missing Date (never raised on) — and R = (R − K) + K;
no `rows_dropped` count exists in the code. -/
theorem c1_drop_accounting (f : UploadedFile) (cfg : Config)
    (nm : List Char) (rs : List OutRow) (d t p : Int)
    (hd : excel_col_to_index cfg.date_col_str = .ok d)
    (ht : excel_col_to_index cfg.time_col_str = .ok t)
    (hp : excel_col_to_index cfg.psum_col_str = .ok p)
    (hok : processFile f cfg = .ok nm rs) :
    rs.length = f.rows.length ∧
    (rs.filter (fun r => r.date.isNone)).length = failCount f cfg.fmt d t ∧
    validCount f cfg.fmt d t + failCount f cfg.fmt d t = f.rows.length := by
  obtain ⟨d', t', p', hd', ht', hp', hnm, hrs⟩ := processFile_ok_inv f cfg nm rs hok
  rw [hd] at hd'
  rw [ht] at ht'
  rw [hp] at hp'
  obtain rfl : d = d' := ColResult.ok.inj hd'
  obtain rfl : t = t' := ColResult.ok.inj ht'
  obtain rfl : p = p' := ColResult.ok.inj hp'
  subst hrs
  refine ⟨List.length_map _ _, ?_, validCount_add_failCount f cfg.fmt d t⟩
  exact length_filter_dateNone cfg.fmt f.ncols d t p f.rows

/-- C1 witness: the amended accounting evaluated on the two-row file. -/
theorem c1_witness :
    rowsMixed.length = fileMixed.rows.length ∧
    (rowsMixed.filter (fun r => r.date.isNone)).length = failCount fileMixed .dmy 0 1 ∧
    validCount fileMixed .dmy 0 1 + failCount fileMixed .dmy 0 1 =
      fileMixed.rows.length :=
  c1_drop_accounting fileMixed cfgABC (pyL "m") rowsMixed 0 1 2
    (by decide) (by decide) (by decide) (by decide)

/-- C2 counterexample: the input string `a` contains a character outside
`A`–`Z`, yet `excel_col_to_index` returns the index 0 instead of failing,
because the code uppercases first. -/
theorem c2_counterexample :
    excel_col_to_index (pyL "a") = .ok 0 ∧
    'a' ∈ pyL "a" ∧ ¬('A' ≤ 'a' ∧ 'a' ≤ 'Z') := by decide

/-- C2 (amended): `excel_col_to_index` converts by standard base-26 with
A=1..Z=26 minus 1 (`A`→0, `Z`→25, `AA`→26, `BI`→60), and every input that
still contains a character outside `A`–`Z` after uppercasing and
stripping surrounding whitespace fails with `InvalidColumnLetter`. -/
theorem c2_conversion (s : List Char)
    (hbad : ∃ c ∈ pyStrip (pyUpper s), ¬('A' ≤ c ∧ c ≤ 'Z')) :
    excel_col_to_index (pyL "A") = .ok 0 ∧
    excel_col_to_index (pyL "Z") = .ok 25 ∧
    excel_col_to_index (pyL "AA") = .ok 26 ∧
    excel_col_to_index (pyL "BI") = .ok 60 ∧
    excel_col_to_index s = .invalidColumnLetter :=
  ⟨by decide, by decide, by decide, by decide, (excel_err_iff s).2 hbad⟩

/-- C2 witness: the amended conversion evaluated at the input `A1`. -/
theorem c2_witness :
    excel_col_to_index (pyL "A") = .ok 0 ∧
    excel_col_to_index (pyL "Z") = .ok 25 ∧
    excel_col_to_index (pyL "AA") = .ok 26 ∧
    excel_col_to_index (pyL "BI") = .ok 60 ∧
    excel_col_to_index (pyL "A1") = .invalidColumnLetter :=
  c2_conversion (pyL "A1") (by decide)

/-- C3: whenever two of the three resolved Date/Time/PSum indices
coincide, the file fails with `DuplicateColumnMapping`, contributes no
output, and the remaining files are processed unchanged. -/
theorem c3_duplicate_mapping (f : UploadedFile) (cfg : Config)
    (fs : List UploadedFile) (cs : List Config) (d t p : Int)
    (hd : excel_col_to_index cfg.date_col_str = .ok d)
    (ht : excel_col_to_index cfg.time_col_str = .ok t)
    (hp : excel_col_to_index cfg.psum_col_str = .ok p)
    (hdup : d = t ∨ d = p ∨ t = p) :
    processFile f cfg = .duplicateColumnMapping ∧
    process_uploaded_files (f :: fs) (cfg :: cs) = process_uploaded_files fs cs := by
  have h1 : processFile f cfg = .duplicateColumnMapping := by
    unfold processFile
    simp only [hd, ht, hp]
    rw [if_pos hdup]
  exact ⟨h1, process_cons_skip f cfg fs cs (fun nm rs h => by rw [h1] at h; exact FileResult.noConfusion h)⟩

/-- C3 witness: Date and Time both mapped to column A. -/
theorem c3_witness :
    processFile fileMixed cfgDup = .duplicateColumnMapping ∧
    process_uploaded_files [fileMixed] [cfgDup] = process_uploaded_files [] [] :=
  c3_duplicate_mapping fileMixed cfgDup [] [] 0 0 1
    (by decide) (by decide) (by decide) (Or.inl rfl)

/-- C4: a file in which every row fails date/time parsing (zero valid
datetimes) is reported as having no valid rows, contributes no entry, and
the remaining files are processed unchanged. -/
theorem c4_empty_source (f : UploadedFile) (cfg : Config)
    (fs : List UploadedFile) (cs : List Config) (d t p : Int)
    (hd : excel_col_to_index cfg.date_col_str = .ok d)
    (ht : excel_col_to_index cfg.time_col_str = .ok t)
    (hp : excel_col_to_index cfg.psum_col_str = .ok p)
    (hn : ¬(d = t ∨ d = p ∨ t = p))
    (hw : ¬((f.ncols : Int) < max d (max t p) + 1))
    (hv : validCount f cfg.fmt d t = 0) :
    processFile f cfg = .noValidRows ∧
    process_uploaded_files (f :: fs) (cfg :: cs) = process_uploaded_files fs cs := by
  have h1 : processFile f cfg = .noValidRows := by
    unfold processFile
    simp only [hd, ht, hp]
    rw [if_neg hn, if_neg hw, if_pos hv]
  exact ⟨h1, process_cons_skip f cfg fs cs (fun nm rs h => by rw [h1] at h; exact FileResult.noConfusion h)⟩

/-- C4 witness: a file whose single row has an unparseable date/time. -/
theorem c4_witness :
    processFile fileAllBad cfgABC = .noValidRows ∧
    process_uploaded_files [fileAllBad] [cfgABC] = process_uploaded_files [] [] :=
  c4_empty_source fileAllBad cfgABC [] [] 0 1 2
    (by decide) (by decide) (by decide) (by decide) (by decide) (by decide)

/-- C5: a file whose parsed table has fewer columns than the maximum
required 0-based index needs is skipped as header-too-short, and the
remaining files are processed unchanged (never process-fatal). -/
theorem c5_header_too_short (f : UploadedFile) (cfg : Config)
    (fs : List UploadedFile) (cs : List Config) (d t p : Int)
    (hd : excel_col_to_index cfg.date_col_str = .ok d)
    (ht : excel_col_to_index cfg.time_col_str = .ok t)
    (hp : excel_col_to_index cfg.psum_col_str = .ok p)
    (hn : ¬(d = t ∨ d = p ∨ t = p))
    (hw : (f.ncols : Int) < max d (max t p) + 1) :
    processFile f cfg = .headerTooShort ∧
    process_uploaded_files (f :: fs) (cfg :: cs) = process_uploaded_files fs cs := by
  have h1 : processFile f cfg = .headerTooShort := by
    unfold processFile
    simp only [hd, ht, hp]
    rw [if_neg hn, if_pos hw]
  exact ⟨h1, process_cons_skip f cfg fs cs (fun nm rs h => by rw [h1] at h; exact FileResult.noConfusion h)⟩

/-- C5 witness: a one-column table with PSum required at index 2. -/
theorem c5_witness :
    processFile fileNarrow cfgABC = .headerTooShort ∧
    process_uploaded_files [fileNarrow] [cfgABC] = process_uploaded_files [] [] :=
  c5_header_too_short fileNarrow cfgABC [] [] 0 1 2
    (by decide) (by decide) (by decide) (by decide) (by decide)

set_option maxRecDepth 100000 in
/-- C6: for every 0-based index n ≤ 701, converting n to its standard
Excel letter string and mapping it back through `excel_col_to_index`
yields n again. -/
theorem c6_round_trip (n : Nat) (h : n ≤ 701) :
    excel_col_to_index (indexToLetter n) = .ok (n : Int) := by
  have key : ∀ m : Fin 702, excel_col_to_index (indexToLetter m.val) = .ok (m.val : Int) := by
    decide
  exact key ⟨n, by omega⟩

/-- C6 witness: the round trip evaluated at 60 (column BI). -/
theorem c6_witness : excel_col_to_index (indexToLetter 60) = .ok (60 : Int) :=
  c6_round_trip 60 (by decide)

/-- C7: two distinct uploaded filenames clean to the same sheet name, and
`process_uploaded_files` then returns a single entry holding only the
later file's rows — the earlier file's data is silently replaced. -/
theorem c7_sheet_collision :
    fileDotB.name ≠ fileUndB.name ∧
    cleanSheetName fileDotB.name = cleanSheetName fileUndB.name ∧
    processFile fileDotB cfgABC = .ok (pyL "a_b") [rowDotB] ∧
    processFile fileUndB cfgABC = .ok (pyL "a_b") [rowUndB] ∧
    rowDotB ≠ rowUndB ∧
    process_uploaded_files [fileDotB, fileUndB] [cfgABC, cfgABC] =
      [(pyL "a_b", [rowUndB])] := by decide

/-- C8: `excel_col_to_index` fails exactly when a non-`A`–`Z` character
remains after uppercasing and stripping surrounding whitespace; ` bi `
resolves to 60, and the empty and all-whitespace strings return −1
without raising. -/
theorem c8_error_condition :
    (∀ s : List Char,
      excel_col_to_index s = .invalidColumnLetter ↔
      ∃ c ∈ pyStrip (pyUpper s), ¬('A' ≤ c ∧ c ≤ 'Z')) ∧
    excel_col_to_index (pyL " bi ") = .ok 60 ∧
    excel_col_to_index [] = .ok (-1) ∧
    excel_col_to_index (pyL "   ") = .ok (-1) :=
  ⟨excel_err_iff, by decide, by decide, by decide⟩

/-- C8 witness: the error characterisation evaluated at the input `1X`. -/
theorem c8_witness : excel_col_to_index (pyL "1X") = .invalidColumnLetter :=
  (c8_error_condition.1 (pyL "1X")).2 (by decide)

/-- C9: in every successfully processed file, every output row whose
date/time parsed carries a Date rendered in `DD/MM/YYYY` shape and a Time
rendered in `HH:MM:SS` shape, whichever of the two input formats was
configured. -/
theorem c9_output_normalized (f : UploadedFile) (cfg : Config)
    (nm : List Char) (rs : List OutRow) (r : OutRow)
    (hok : processFile f cfg = .ok nm rs) (hr : r ∈ rs) :
    (∀ ds, r.date = some ds → dateShape ds = true) ∧
    (∀ ts, r.time = some ts → timeShape ts = true) := by
  obtain ⟨d, t, p, _, _, _, _, hrs⟩ := processFile_ok_inv f cfg nm rs hok
  subst hrs
  obtain ⟨row, _, hrow⟩ := List.mem_map.1 hr
  constructor
  · intro ds hds
    rw [← hrow] at hds
    simp only [mkOutRow] at hds
    obtain ⟨dt, _, hfm⟩ := Option.map_eq_some'.1 hds
    rw [← hfm]
    exact dateShape_formatDMY dt
  · intro ts hts
    rw [← hrow] at hts
    simp only [mkOutRow] at hts
    obtain ⟨dt, _, hfm⟩ := Option.map_eq_some'.1 hts
    rw [← hfm]
    exact timeShape_formatHMS dt

/-- C9 witness: the normalized shapes on the one-row file. -/
theorem c9_witness :
    dateShape (pyL "01/01/2021") = true ∧ timeShape (pyL "00:00:00") = true := by
  have h := c9_output_normalized fileNine cfgABC (pyL "m9") [rowNine] rowNine
    (by decide) (by decide)
  exact ⟨h.1 (pyL "01/01/2021") (by decide), h.2 (pyL "00:00:00") (by decide)⟩

/-- C10: the pipeline is deterministic — value-identical input files with
identical configurations produce value-identical outputs (same sheet
names mapped to the same rows). -/
theorem c10_deterministic (fs1 fs2 : List UploadedFile) (cs1 cs2 : List Config)
    (hf : fs1 = fs2) (hc : cs1 = cs2) :
    process_uploaded_files fs1 cs1 = process_uploaded_files fs2 cs2 := by
  rw [hf, hc]

/-- C10 witness: determinism instantiated on a concrete run. -/
theorem c10_witness :
    process_uploaded_files [fileMixed] [cfgABC] =
    process_uploaded_files [fileMixed] [cfgABC] :=
  c10_deterministic [fileMixed] [fileMixed] [cfgABC] [cfgABC] rfl rfl

end DataExtractor
